import Mathlib

/-!
Verification of the dotclock flip-dot display animation/timing engine.

Shallow embedding of:
  * `src/flip-dot-display/src/hooks/useFlipDotSound.ts`
      - `FlipDotSoundManager` (burst-throttled audio trigger `playFlipSound`)
      - `useFlipDotSound` settings state (load from localStorage, setters,
        persistence on change)
  * `src/flip-dot-display/src/components/FlipDotDisplay.tsx`
      - the per-cell stagger delay `distance * 2` with
        `distance = sqrt((r - floor(rows/2))^2 + (c - floor(cols/2))^2)`
  * `src/flip-dot-display/src/components/FlipDot.tsx`
      - the per-cell transition driven by a `useEffect` with dependency list
        `[isActive, currentState, delay, onFlip]` and a chain of three
        `setTimeout`s (delay, then 100ms, then 100ms).

Timing is modelled with a discrete scheduler over `Nat` timestamps; the
JavaScript event loop is single threaded, timers fire in timestamp order
(FIFO creation order on ties).
-/

namespace DotClock

/-! ## Sound settings (`useFlipDotSound.ts`, hook part)

`localStorage.getItem('flipDotSoundSettings')` returns either nothing
(`absent`), or a string.  `JSON.parse` on that string either throws
(`unparseable`, caught and ignored by the hook) or yields a JavaScript
value which the hook returns *as is*, with no shape validation.  A parsed
value is either an object of the expected settings shape, or anything
else (`other`). -/

/-- A JavaScript value obtained from `JSON.parse`: either an object with
the `SoundSettings` shape `{enabled: boolean, volume: number}`, or any
other JSON value (number, array, object of a different shape, ...). -/
inductive JsonValue where
  | settingsObj (enabled : Bool) (volume : Int)
  | other
deriving Repr, DecidableEq

/-- The content of the persisted store under the key
`'flipDotSoundSettings'` as seen through `JSON.parse`. -/
inductive StoredContent where
  | absent
  | unparseable
  | parseable (v : JsonValue)
deriving Repr, DecidableEq

/-- The initial-state thunk of `useState` in `useFlipDotSound`:
if a saved string exists, try `JSON.parse` and return its result;
on a parse error fall through; otherwise return
`{ enabled: true, volume: 30 }`. -/
def loadSoundSettings : StoredContent → JsonValue
  | .absent => .settingsObj true 30
  | .unparseable => .settingsObj true 30
  | .parseable v => v

/-- A stored content is a well-formed settings object when it parses to
the settings shape with `volume` an integer in `0..100`. -/
def StoredContent.wellFormed : StoredContent → Prop
  | .parseable (.settingsObj _ v) => 0 ≤ v ∧ v ≤ 100
  | _ => False

instance : DecidablePred StoredContent.wellFormed := by
  intro c
  cases c with
  | absent => exact .isFalse (by simp [StoredContent.wellFormed])
  | unparseable => exact .isFalse (by simp [StoredContent.wellFormed])
  | parseable v =>
    cases v with
    | settingsObj e vol => exact inferInstanceAs (Decidable (_ ∧ _))
    | other => exact .isFalse (by simp [StoredContent.wellFormed])

/-- The in-memory settings state of the hook. -/
structure SoundSettings where
  enabled : Bool
  volume : Int
deriving Repr, DecidableEq

/-- `setVolume`: `{ ...prev, volume: Math.max(0, Math.min(100, volume)) }`. -/
def setVolume (volume : Int) (prev : SoundSettings) : SoundSettings :=
  { prev with volume := max 0 (min 100 volume) }

/-- `toggleSound`: `{ ...prev, enabled: !prev.enabled }`. -/
def toggleSound (prev : SoundSettings) : SoundSettings :=
  { prev with enabled := !prev.enabled }

/-- `setEnabled`: `{ ...prev, enabled }`. -/
def setEnabled (enabled : Bool) (prev : SoundSettings) : SoundSettings :=
  { prev with enabled := enabled }

/-- The persistence effect: on every settings change the hook writes
`JSON.stringify(soundSettings)`; parsing that string back recovers the
same object, so through `JSON.parse` the store holds the settings
object itself. -/
def persistSettings (s : SoundSettings) : StoredContent :=
  .parseable (.settingsObj s.enabled s.volume)

/-- One call to one of the hook's setters. -/
inductive SetterCall where
  | vol (v : Int)
  | toggle
  | enab (b : Bool)
deriving Repr, DecidableEq

/-- Apply a sequence of setter calls, first call first. -/
def applySetters (ops : List SetterCall) (s : SoundSettings) : SoundSettings :=
  match ops with
  | [] => s
  | op :: rest =>
    applySetters rest
      (match op with
       | .vol v => setVolume v s
       | .toggle => toggleSound s
       | .enab b => setEnabled b s)

/-! ## Sound manager (`useFlipDotSound.ts`, `FlipDotSoundManager`)

The manager's observable control state is `initialized`, `lastPlayTime`
and `playCount` (named `burstCounter` in the spec).  `Date.now()` and
`Math.random()` are inputs.  `playFlipSound` either synthesizes one
sound (`true`) or is silent (`false`); it never throws. -/

structure SoundMgr where
  initialized : Bool
  lastPlayTime : Nat
  playCount : Nat
deriving Repr, DecidableEq

/-- The constructor together with `initAudioContext`: constructing an
`AudioContext` either succeeds (`initialized := true`) or throws, the
`catch` swallows the error and the manager stays uninitialized. -/
def mkSoundMgr (audioSupported : Bool) : SoundMgr :=
  { initialized := audioSupported, lastPlayTime := 0, playCount := 0 }

/-- `playFlipSound(volume, enabled)` at wall-clock time `now` with the
throttle's `Math.random()` draw `r`.  Returns the updated manager and
whether a sound was synthesized.  Mirrors the source exactly:
early return when disabled or uninitialized; if `now - lastPlayTime < 5`
increment `playCount` and, once `playCount > 20`, drop when
`Math.random() > 0.3` (the drop path returns before `lastPlayTime = now`);
otherwise reset `playCount` to 0; surviving calls set `lastPlayTime := now`
and synthesize.  The literal `0.3` is the rational `mkRat 3 10`. -/
def playFlipSound (m : SoundMgr) (enabled : Bool) (now : Nat) (r : ℚ) :
    SoundMgr × Bool :=
  if !enabled || !m.initialized then (m, false)
  else if now - m.lastPlayTime < 5 then
    let pc := m.playCount + 1
    if 20 < pc ∧ mkRat 3 10 < r then
      ({ m with playCount := pc }, false)
    else
      ({ m with playCount := pc, lastPlayTime := now }, true)
  else
    ({ m with playCount := 0, lastPlayTime := now }, true)

/-- Run a burst of triggers.  Each list item is `(gap, r)`: the trigger
fires `gap` time-units after the previous one (after time `t` for the
first), with random draw `r`.  Returns the final manager state and, per
trigger, whether it synthesized a sound. -/
def runTriggers (m : SoundMgr) (t : Nat) :
    List (Nat × ℚ) → SoundMgr × List Bool
  | [] => (m, [])
  | (g, r) :: rest =>
    let t' := t + g
    let step := playFlipSound m true t' r
    let tail := runTriggers step.1 t' rest
    (tail.1, step.2 :: tail.2)

/-! ## Grid scheduler delay (`FlipDotDisplay.tsx`)

For cell `(rowIndex, colIndex)` the component computes
`centerRow = Math.floor(dimensions.rows / 2)`,
`centerCol = Math.floor(dimensions.cols / 2)`,
`distance = Math.sqrt((rowIndex-centerRow)^2 + (colIndex-centerCol)^2)`
and `delay = distance * 2`. -/

/-- The squared radial distance of cell `(r, c)` from the grid center
`(floor(rows/2), floor(cols/2))`, as an integer. -/
def distSq (rows cols r c : Nat) : Int :=
  ((r : Int) - (rows / 2 : Nat)) ^ 2 + ((c : Int) - (cols / 2 : Nat)) ^ 2

/-- `Math.sqrt(Math.pow(rowIndex - centerRow, 2) + Math.pow(colIndex - centerCol, 2))`. -/
noncomputable def distance (rows cols r c : Nat) : ℝ :=
  Real.sqrt ((distSq rows cols r c : ℝ))

/-- `const delay = distance * 2`. -/
noncomputable def dotDelay (rows cols r c : Nat) : ℝ :=
  distance rows cols r c * 2

/-! ## Per-cell transition (`FlipDot.tsx`)

The component keeps React state `isFlipping` (the spec's `phase`,
`true = Flipping`) and `currentState`, and receives props `isActive`
(the target) and `delay`.  Its `useEffect`, with dependency array
`[isActive, currentState, delay, onFlip]`, runs after any render in
which `isActive` or `currentState` changed (`delay` and `onFlip` are
fixed here); its cleanup clears the *outer* `setTimeout` handle only.
The two `return () => clearTimeout(...)` statements inside the nested
`setTimeout` callbacks are returns from timer callbacks, not effect
cleanups — they never execute, so the inner 100ms timers are never
cancelled.  We therefore keep the cancellable outer timer in
`pendingOuter` (at most one, since each effect run clears its
predecessor's) and the non-cancellable inner timers in `chains`.

Unmounting runs the last effect's cleanup (clearing the outer timer)
and nothing else; inner timers still fire afterwards, and their
`setCurrentState`/`setIsFlipping` calls execute against the unmounted
component (recorded in `lateUpdates`). -/

/-- An inner, non-cancellable timer of a transition chain:
`setCur t v` is the first 100ms timer (`setCurrentState(isActive)` with
captured target `v`, then schedule the reset timer), `reset t` is the
second 100ms timer (`setIsFlipping(false)`). -/
inductive ChainTimer where
  | setCur (fireAt : Nat) (captured : Bool)
  | reset (fireAt : Nat)
deriving Repr, DecidableEq

def ChainTimer.fireAt : ChainTimer → Nat
  | .setCur t _ => t
  | .reset t => t

/-- The observable world of one `FlipDot` cell. `flips` records the
times at which `onFlip` was invoked; `lateUpdates` records the times of
state-setter calls executed after unmount. -/
structure Cell where
  delay : Nat
  now : Nat
  isActive : Bool
  currentState : Bool
  isFlipping : Bool
  destroyed : Bool
  pendingOuter : Option (Nat × Bool)
  chains : List ChainTimer
  flips : List Nat
  lateUpdates : List Nat
deriving Repr, DecidableEq

/-- A freshly mounted cell: `useState(isActive)` makes
`currentState = isActive`, `isFlipping = false`; the mount-time effect
run schedules nothing since `currentState === isActive`. -/
def initCell (delay : Nat) (b : Bool) : Cell :=
  { delay := delay, now := 0, isActive := b, currentState := b,
    isFlipping := false, destroyed := false, pendingOuter := none,
    chains := [], flips := [], lateUpdates := [] }

/-- One run of the effect (cleanup of the previous run, then the body):
clear the previous outer timer; if `currentState !== isActive`,
schedule the outer timer `delay` from now, capturing the current
`isActive`. -/
def effect (w : Cell) : Cell :=
  let w := { w with pendingOuter := none }
  if w.currentState != w.isActive then
    { w with pendingOuter := some (w.now + w.delay, w.isActive) }
  else w

/-- An external action on the cell: a new `isActive` prop value, or
unmount. -/
inductive Cmd where
  | setTarget (v : Bool)
  | unmount
deriving Repr, DecidableEq

/-- A timed external action. -/
structure Ev where
  t : Nat
  cmd : Cmd
deriving Repr, DecidableEq

/-- Apply an external action. A prop value equal to the current one is
dropped by `memo` (and would not change the effect's dependencies
anyway); a changed one re-runs the effect. Unmount runs the last
effect's cleanup, which clears only the outer timer. -/
def applyCmd (w : Cell) (e : Ev) : Cell :=
  let w := { w with now := e.t }
  if w.destroyed then w
  else
    match e.cmd with
    | .setTarget v => if v == w.isActive then w else effect { w with isActive := v }
    | .unmount => { w with destroyed := true, pendingOuter := none }

/-- The outer timer fires at `t`: `setIsFlipping(true)`, invoke `onFlip`,
schedule the 100ms `setCurrentState` timer capturing `v`.  (`isFlipping`
is not in the effect's dependency array, so no effect re-run.) -/
def fireOuter (w : Cell) (t : Nat) (v : Bool) : Cell :=
  { w with now := t, isFlipping := true, flips := w.flips ++ [t],
           chains := w.chains ++ [ChainTimer.setCur (t + 100) v] }

/-- The first inner timer fires at `t`: schedule the 100ms reset timer
(this `setTimeout` call is inside the callback, so it happens even after
unmount), then `setCurrentState(v)`.  After unmount the setter is a
recorded late update; otherwise a changed `currentState` re-runs the
effect. -/
def fireSetCur (w : Cell) (t : Nat) (v : Bool) : Cell :=
  let w := { w with now := t, chains := w.chains ++ [ChainTimer.reset (t + 100)] }
  if w.destroyed then { w with lateUpdates := w.lateUpdates ++ [t] }
  else if v == w.currentState then w
  else effect { w with currentState := v }

/-- The second inner timer fires at `t`: `setIsFlipping(false)` (a late
update if unmounted; not an effect dependency otherwise). -/
def fireReset (w : Cell) (t : Nat) : Cell :=
  if w.destroyed then { w with now := t, lateUpdates := w.lateUpdates ++ [t] }
  else { w with now := t, isFlipping := false }

/-- Extract the chain timer with the smallest fire time (first created
on ties, matching the event loop's FIFO order), keeping the rest in
creation order. -/
def extractMin : List ChainTimer → Option (ChainTimer × List ChainTimer)
  | [] => none
  | c :: cs =>
    match extractMin cs with
    | none => some (c, [])
    | some (m, rest) =>
      if c.fireAt ≤ m.fireAt then some (c, cs) else some (m, c :: rest)

/-- The next timer due to fire: the pending outer timer or the earliest
chain timer. -/
inductive NextTimer where
  | outer (t : Nat) (v : Bool)
  | chain (c : ChainTimer)
deriving Repr, DecidableEq

def NextTimer.time : NextTimer → Nat
  | .outer t _ => t
  | .chain c => c.fireAt

/-- Pick the earliest pending timer and remove it from the cell. -/
def nextTimer (w : Cell) : Option (NextTimer × Cell) :=
  match w.pendingOuter, extractMin w.chains with
  | none, none => none
  | some (t, v), none => some (.outer t v, { w with pendingOuter := none })
  | none, some (c, rest) => some (.chain c, { w with chains := rest })
  | some (t, v), some (c, rest) =>
    if t ≤ c.fireAt then some (.outer t v, { w with pendingOuter := none })
    else some (.chain c, { w with chains := rest })

def fireTimer (w : Cell) : NextTimer → Cell
  | .outer t v => fireOuter w t v
  | .chain (.setCur t v) => fireSetCur w t v
  | .chain (.reset t) => fireReset w t

/-- One scheduler step: process the earliest of the next external action
and the next timer (external action first on a tie); `none` when
quiescent. -/
def step : List Ev × Cell → Option (List Ev × Cell)
  | ([], w) =>
    match nextTimer w with
    | none => none
    | some (nt, w') => some ([], fireTimer w' nt)
  | (e :: es, w) =>
    match nextTimer w with
    | none => some (es, applyCmd w e)
    | some (nt, w') =>
      if e.t ≤ nt.time then some (es, applyCmd w e)
      else some (e :: es, fireTimer w' nt)

/-- Run up to `fuel` scheduler steps. -/
def run (fuel : Nat) (s : List Ev × Cell) : List Ev × Cell :=
  match fuel with
  | 0 => s
  | fuel + 1 =>
    match step s with
    | none => s
    | some s' => run fuel s'

/-! ## Theorems -/

/-- Claim C1: Counter-evidence run for the single-active-transition claim.
With `delay = 50`, starting from `currentState = false`:
`setTarget(true)` at `t = 0` starts a transition whose flip begins at
`t = 50`; `setTarget(false)` at `t = 60` arrives while that transition
is in flight (its 100ms sub-timer due at `t = 150` is NOT cancelled —
the cleanup closures returned inside the `setTimeout` callbacks are
dead code); `setTarget(true)` at `t = 70` schedules a second transition
whose flip begins at `t = 120`.  Just after `t = 120` both chains'
sub-timers (due 150 and 220) are pending concurrently and the flip
callback has fired twice, contradicting the claimed cancellation of
in-flight timers and the at-most-one-chain invariant; the final
`currentState` does equal the last requested target. -/
theorem overlappingChainsAtFailingInput :
    (run 5 ([⟨0, .setTarget true⟩, ⟨60, .setTarget false⟩, ⟨70, .setTarget true⟩],
        initCell 50 false)).2.chains =
      [ChainTimer.setCur 150 true, ChainTimer.setCur 220 true] ∧
    (run 5 ([⟨0, .setTarget true⟩, ⟨60, .setTarget false⟩, ⟨70, .setTarget true⟩],
        initCell 50 false)).2.flips = [50, 120] ∧
    (run 20 ([⟨0, .setTarget true⟩, ⟨60, .setTarget false⟩, ⟨70, .setTarget true⟩],
        initCell 50 false)).2.currentState = true ∧
    (run 20 ([⟨0, .setTarget true⟩, ⟨60, .setTarget false⟩, ⟨70, .setTarget true⟩],
        initCell 50 false)).2.chains = [] := by
  decide

/-- Claim C2: An undisturbed transition (target differing from
`currentState`, requested at `t = 0`): the flip callback fires exactly
once, exactly at `t = delay` when the transition starts, at which
moment `phase` is Flipping and `currentState` is still the old value;
at `t = delay + 100` `currentState` becomes the target (phase still
Flipping); at `t = delay + 200` `phase` returns to Idle; nothing
further happens. -/
theorem flipTransitionTimeline (delay : Nat) (b : Bool) :
    (run 2 ([⟨0, .setTarget (!b)⟩], initCell delay b)).2.flips = [delay] ∧
    (run 2 ([⟨0, .setTarget (!b)⟩], initCell delay b)).2.isFlipping = true ∧
    (run 2 ([⟨0, .setTarget (!b)⟩], initCell delay b)).2.currentState = b ∧
    (run 2 ([⟨0, .setTarget (!b)⟩], initCell delay b)).2.now = delay ∧
    (run 3 ([⟨0, .setTarget (!b)⟩], initCell delay b)).2.currentState = !b ∧
    (run 3 ([⟨0, .setTarget (!b)⟩], initCell delay b)).2.isFlipping = true ∧
    (run 3 ([⟨0, .setTarget (!b)⟩], initCell delay b)).2.now = delay + 100 ∧
    (run 4 ([⟨0, .setTarget (!b)⟩], initCell delay b)).2.isFlipping = false ∧
    (run 4 ([⟨0, .setTarget (!b)⟩], initCell delay b)).2.now = delay + 200 ∧
    (run 4 ([⟨0, .setTarget (!b)⟩], initCell delay b)).2.flips = [delay] ∧
    run 5 ([⟨0, .setTarget (!b)⟩], initCell delay b) =
      run 4 ([⟨0, .setTarget (!b)⟩], initCell delay b) := by
  cases b <;>
    simp [run, step, nextTimer, extractMin, applyCmd, effect, fireTimer,
          fireOuter, fireSetCur, fireReset, initCell, NextTimer.time,
          ChainTimer.fireAt]

/-- Claim C3: The scheduled delay of cell `(r, c)` in a `rows × cols` grid is
`sqrt((r - floor(rows/2))^2 + (c - floor(cols/2))^2)` times the
constant stagger unit 2, and a cell strictly closer to the center than
another gets a strictly smaller delay. -/
theorem staggerDelayFormulaAndOrdering (rows cols rA cA rB cB : Nat) :
    dotDelay rows cols rA cA =
      Real.sqrt (((rA : ℝ) - (rows / 2 : Nat)) ^ 2 +
                 ((cA : ℝ) - (cols / 2 : Nat)) ^ 2) * 2 ∧
    (distSq rows cols rA cA < distSq rows cols rB cB →
      dotDelay rows cols rA cA < dotDelay rows cols rB cB) := by
  constructor
  · unfold dotDelay distance
    congr 2
    unfold distSq
    simp only [Int.cast_add, Int.cast_pow, Int.cast_sub, Int.cast_natCast]
  · intro h
    unfold dotDelay distance
    have hA : (0 : ℝ) ≤ (distSq rows cols rA cA : ℝ) := by
      unfold distSq; push_cast; positivity
    have hlt : (distSq rows cols rA cA : ℝ) < (distSq rows cols rB cB : ℝ) := by
      exact_mod_cast h
    have hs := Real.sqrt_lt_sqrt hA hlt
    linarith

/-- Witness for C3: in a 3×3 grid the center cell (1,1) is strictly
closer to the center than the corner (0,0) and gets a strictly smaller
delay. -/
theorem staggerDelayOrderingWitness :
    distSq 3 3 1 1 < distSq 3 3 0 0 ∧ dotDelay 3 3 1 1 < dotDelay 3 3 0 0 :=
  ⟨by decide, (staggerDelayFormulaAndOrdering 3 3 1 1 0 0).2 (by decide)⟩

/-- Claim C5: `setTarget` with a value equal to the cell's `currentState`
while the cell is idle is a no-op: no timer is scheduled, the flip
callback never fires, and the cell state is unchanged. -/
theorem setTargetIdleIdempotent (delay : Nat) (b : Bool) :
    run 2 ([⟨0, .setTarget b⟩], initCell delay b) = ([], initCell delay b) := by
  cases b <;> rfl

/-- Claim C6: Counter-evidence run for the unmount-cancels-everything claim.
With `delay = 50`: `setTarget(true)` at `t = 0` makes the flip start at
`t = 50`; the cell is unmounted at `t = 60`, mid-transition.  The
unmount cleanup clears only the (already fired) outer timer, so the
in-flight 100ms sub-timers still fire: state-setter calls execute
against the destroyed cell at `t = 150` and `t = 250`.  (The flip
callback itself fires only at `t = 50`, before destruction.) -/
theorem lateTimersAfterUnmount :
    (run 20 ([⟨0, .setTarget true⟩, ⟨60, .unmount⟩], initCell 50 false)).2.lateUpdates
      = [150, 250] ∧
    (run 20 ([⟨0, .setTarget true⟩, ⟨60, .unmount⟩], initCell 50 false)).2.flips
      = [50] ∧
    (run 20 ([⟨0, .setTarget true⟩, ⟨60, .unmount⟩], initCell 50 false)).2.destroyed
      = true := by
  decide

/-- Claim C7: `playFlipSound` with `enabled = false`, or on a manager whose
audio construction failed, is a silent no-op: the state is unchanged,
no sound is synthesized, and (being a total function) no error reaches
the caller. -/
theorem triggerDisabledNoOp (m : SoundMgr) (enabled : Bool) (now : Nat) (r : ℚ)
    (h : enabled = false ∨ m.initialized = false) :
    playFlipSound m enabled now r = (m, false) := by
  unfold playFlipSound
  rcases h with h | h <;> simp [h]

/-- Witness for C7: a manager built with audio construction failing
ignores a trigger. -/
theorem triggerDisabledNoOpWitness :
    playFlipSound (mkSoundMgr false) true 10 (1/2) = (mkSoundMgr false, false) :=
  triggerDisabledNoOp (mkSoundMgr false) true 10 (1/2) (Or.inr rfl)

/-- Claim C8 counterexample: A corrupt (not well-formed) but parseable stored
value — e.g. any JSON value that is not a settings object — does NOT
fall back to the defaults: `JSON.parse`'s result is returned as-is,
with no shape validation. -/
theorem loadSettingsCorruptCounterexample :
    loadSoundSettings (.parseable .other) ≠ .settingsObj true 30 ∧
    ¬ (StoredContent.parseable .other).wellFormed := by
  decide

/-- Claim C8 amended: Stored content that is absent or fails to parse yields
the defaults `{enabled: true, volume: 30}` without raising; content
that parses successfully is used as-is, even when it is not a
well-formed settings object. -/
theorem loadSettingsAmended :
    loadSoundSettings .absent = .settingsObj true 30 ∧
    loadSoundSettings .unparseable = .settingsObj true 30 ∧
    ∀ v, loadSoundSettings (.parseable v) = v :=
  ⟨rfl, rfl, fun _ => rfl⟩

/-- Claim C9: Persistence round-trip: for any in-range volume `v`, setting the
volume and re-initializing the settings from the persisted store yields
exactly `v`, with `enabled` unchanged. -/
theorem volumePersistRoundTrip (s : SoundSettings) (v : Int)
    (h0 : 0 ≤ v) (h1 : v ≤ 100) :
    loadSoundSettings (persistSettings (setVolume v s)) =
      .settingsObj s.enabled v := by
  have hclamp : max 0 (min 100 v) = v := by omega
  simp [loadSoundSettings, persistSettings, setVolume, hclamp]

/-- Witness for C9: round-tripping volume 77. -/
theorem volumePersistRoundTripWitness :
    loadSoundSettings (persistSettings (setVolume 77 ⟨true, 30⟩)) =
      .settingsObj true 77 :=
  volumePersistRoundTrip ⟨true, 30⟩ 77 (by decide) (by decide)

/-- Claim C10: `setVolume` stores the clamped value `max 0 (min 100 v)` for
every integer input, and consequently any sequence of setter calls
starting from an in-range state (such as the default `volume = 30`)
leaves the volume within `0..100`. -/
theorem setVolumeClampInvariant :
    (∀ (s : SoundSettings) (v : Int),
        (setVolume v s).volume = max 0 (min 100 v)) ∧
    (∀ (ops : List SetterCall) (s : SoundSettings),
        0 ≤ s.volume → s.volume ≤ 100 →
        0 ≤ (applySetters ops s).volume ∧ (applySetters ops s).volume ≤ 100) := by
  constructor
  · intro s v; rfl
  · intro ops
    induction ops with
    | nil => intro s h0 h1; exact ⟨h0, h1⟩
    | cons op rest ih =>
      intro s h0 h1
      cases op with
      | vol v =>
        simp only [applySetters]
        have hv : (setVolume v s).volume = max 0 (min 100 v) := rfl
        exact ih (setVolume v s) (by rw [hv]; omega) (by rw [hv]; omega)
      | toggle =>
        simp only [applySetters]
        exact ih (toggleSound s) h0 h1
      | enab b =>
        simp only [applySetters]
        exact ih (setEnabled b s) h0 h1

/-- An enabled, initialized trigger within the 5-unit window whose
incremented counter has not exceeded the cap of 20 is played:
the counter increments and `lastPlayTime` advances. -/
theorem playFlipSound_keep (m : SoundMgr) (now : Nat) (r : ℚ)
    (hinit : m.initialized = true) (hgap : now - m.lastPlayTime < 5)
    (hcount : m.playCount + 1 ≤ 20) :
    playFlipSound m true now r =
      ({ m with playCount := m.playCount + 1, lastPlayTime := now }, true) := by
  have h20 : ¬ (20 < m.playCount + 1 ∧ mkRat 3 10 < r) := by
    rintro ⟨h, _⟩; omega
  simp [playFlipSound, hinit, hgap, h20]

/-- An enabled, initialized trigger within the 5-unit window whose
incremented counter exceeds 20 is dropped when the random draw exceeds
0.3: only the counter is updated. -/
theorem playFlipSound_dropHit (m : SoundMgr) (now : Nat) (r : ℚ)
    (hinit : m.initialized = true) (hgap : now - m.lastPlayTime < 5)
    (hcount : 20 < m.playCount + 1) (hr : mkRat 3 10 < r) :
    playFlipSound m true now r = ({ m with playCount := m.playCount + 1 }, false) := by
  simp [playFlipSound, hinit, hgap, hcount, hr]

/-- An enabled, initialized trigger at or beyond the 5-unit window is
played and resets the counter to 0. -/
theorem playFlipSound_afterGap (m : SoundMgr) (now : Nat) (r : ℚ)
    (hinit : m.initialized = true) (hgap : ¬ (now - m.lastPlayTime < 5)) :
    playFlipSound m true now r =
      ({ m with playCount := 0, lastPlayTime := now }, true) := by
  simp [playFlipSound, hinit, hgap]

/-- A rapid burst that stays at or under the cap: every trigger is
played, the counter counts the triggers, and `lastPlayTime` tracks the
last trigger time. -/
theorem runTriggers_rapid (items : List (Nat × ℚ)) (m : SoundMgr) (t : Nat)
    (hinit : m.initialized = true) (hlast : m.lastPlayTime = t)
    (hcount : m.playCount + items.length ≤ 20)
    (hgaps : ∀ p ∈ items, p.1 < 5) :
    (runTriggers m t items).2 = List.replicate items.length true ∧
    (runTriggers m t items).1.initialized = true ∧
    (runTriggers m t items).1.playCount = m.playCount + items.length ∧
    (runTriggers m t items).1.lastPlayTime = t + (items.map Prod.fst).sum := by
  induction items generalizing m t with
  | nil => exact ⟨rfl, hinit, rfl, hlast⟩
  | cons p rest ih =>
    obtain ⟨g, r⟩ := p
    have hg : g < 5 := hgaps (g, r) (List.mem_cons_self _ _)
    have hgap : (t + g) - m.lastPlayTime < 5 := by omega
    have hc1 : m.playCount + 1 ≤ 20 := by
      simp only [List.length_cons] at hcount; omega
    simp only [runTriggers]
    rw [playFlipSound_keep m (t + g) r hinit hgap hc1]
    obtain ⟨h1, h2, h3, h4⟩ := ih
      { m with playCount := m.playCount + 1, lastPlayTime := t + g } (t + g)
      hinit rfl
      (by show m.playCount + 1 + rest.length ≤ 20
          simp only [List.length_cons] at hcount
          omega)
      (fun q hq => hgaps q (List.mem_cons_of_mem _ hq))
    have hpc : ({ m with playCount := m.playCount + 1, lastPlayTime := t + g } : SoundMgr).playCount = m.playCount + 1 := rfl
    refine ⟨?_, h2, ?_, ?_⟩
    · simp [h1, List.replicate_succ]
    · rw [h3, hpc, List.length_cons]
      omega
    · rw [h4, List.map_cons, List.sum_cons]
      omega

/-- Triggers that all arrive at least 5 time-units after the previous
play are all played, from any reachable manager state. -/
theorem runTriggers_spaced (items : List (Nat × ℚ)) (m : SoundMgr) (t : Nat)
    (hinit : m.initialized = true) (hlast : m.lastPlayTime ≤ t)
    (hgaps : ∀ p ∈ items, 5 ≤ p.1) :
    ∀ b ∈ (runTriggers m t items).2, b = true := by
  induction items generalizing m t with
  | nil => simp [runTriggers]
  | cons p rest ih =>
    obtain ⟨g, r⟩ := p
    have hg : 5 ≤ g := hgaps (g, r) (List.mem_cons_self _ _)
    have hgap : ¬ ((t + g) - m.lastPlayTime < 5) := by omega
    simp only [runTriggers]
    rw [playFlipSound_afterGap m (t + g) r hinit hgap]
    intro b hb
    simp only [List.mem_cons] at hb
    rcases hb with hb | hb
    · exact hb
    · exact ih { m with playCount := 0, lastPlayTime := t + g } (t + g)
        hinit (le_refl _) (fun q hq => hgaps q (List.mem_cons_of_mem _ hq)) b hb

/-- Splitting a trigger burst: the manager state and elapsed time thread
through. -/
theorem runTriggers_append (xs ys : List (Nat × ℚ)) (m : SoundMgr) (t : Nat) :
    runTriggers m t (xs ++ ys) =
      ((runTriggers (runTriggers m t xs).1 (t + (xs.map Prod.fst).sum) ys).1,
       (runTriggers m t xs).2 ++
         (runTriggers (runTriggers m t xs).1 (t + (xs.map Prod.fst).sum) ys).2) := by
  induction xs generalizing m t with
  | nil => simp [runTriggers]
  | cons p rest ih =>
    obtain ⟨g, r⟩ := p
    simp only [List.cons_append, runTriggers, List.map_cons, List.sum_cons,
      List.append_eq]
    rw [ih]
    rw [Nat.add_assoc]

/-- Claim C4: The burst throttle: (i) after 20 rapid triggers (every gap,
including the first since manager creation, under 5 time-units) all of
which play, a 21st rapid trigger has counter 21 > 20 and is dropped
whenever its random draw exceeds 0.3; (ii) triggers spaced more than 5
time-units apart are never dropped (the first trigger after creation is
played in either branch); (iii) mechanism: a gap under 5 increments the
counter, a gap of at least 5 resets it to 0 and plays. -/
theorem burstThrottleBoundary :
    (∀ (pre : List (Nat × ℚ)) (g : Nat) (r : ℚ),
        pre.length = 20 → (∀ p ∈ pre, p.1 < 5) → g < 5 → mkRat 3 10 < r →
        (runTriggers (mkSoundMgr true) 0 (pre ++ [(g, r)])).2 =
          List.replicate 20 true ++ [false]) ∧
    (∀ (first : Nat × ℚ) (rest : List (Nat × ℚ)),
        (∀ p ∈ rest, 5 < p.1) →
        ∀ b ∈ (runTriggers (mkSoundMgr true) 0 (first :: rest)).2, b = true) ∧
    (∀ (m : SoundMgr) (now : Nat) (r : ℚ), m.initialized = true →
        (now - m.lastPlayTime < 5 →
          (playFlipSound m true now r).1.playCount = m.playCount + 1) ∧
        (5 ≤ now - m.lastPlayTime →
          (playFlipSound m true now r).1.playCount = 0 ∧
          (playFlipSound m true now r).2 = true)) := by
  refine ⟨?_, ?_, ?_⟩
  · intro pre g r hlen hpre hg hr
    obtain ⟨hflags, hinit1, hcount1, hlast1⟩ :=
      runTriggers_rapid pre (mkSoundMgr true) 0 rfl rfl
        (by simp [mkSoundMgr, hlen]) hpre
    rw [runTriggers_append]
    have hgap : (0 + (pre.map Prod.fst).sum + g) -
        (runTriggers (mkSoundMgr true) 0 pre).1.lastPlayTime < 5 := by
      rw [hlast1]; omega
    have hcount : 20 < (runTriggers (mkSoundMgr true) 0 pre).1.playCount + 1 := by
      rw [hcount1]; simp [mkSoundMgr, hlen]
    simp only [runTriggers]
    rw [playFlipSound_dropHit _ _ _ hinit1 hgap hcount hr]
    rw [hflags, hlen]
  · intro first rest hrest b hb
    obtain ⟨g1, r1⟩ := first
    simp only [runTriggers] at hb
    by_cases hg1 : (0 + g1) - (mkSoundMgr true).lastPlayTime < 5
    · rw [playFlipSound_keep _ _ _ rfl hg1 (by simp [mkSoundMgr])] at hb
      simp only [List.mem_cons] at hb
      rcases hb with hb | hb
      · exact hb
      · exact runTriggers_spaced rest _ (0 + g1) rfl (le_refl _)
          (fun q hq => le_of_lt (hrest q hq)) b hb
    · rw [playFlipSound_afterGap _ _ _ rfl hg1] at hb
      simp only [List.mem_cons] at hb
      rcases hb with hb | hb
      · exact hb
      · exact runTriggers_spaced rest _ (0 + g1) rfl (le_refl _)
          (fun q hq => le_of_lt (hrest q hq)) b hb
  · intro m now r hinit
    constructor
    · intro hgap
      by_cases hd : 20 < m.playCount + 1 ∧ mkRat 3 10 < r
      · rw [playFlipSound_dropHit m now r hinit hgap hd.1 hd.2]
      · simp [playFlipSound, hinit, hgap, hd]
    · intro hgap
      have h5 : ¬ (now - m.lastPlayTime < 5) := by omega
      rw [playFlipSound_afterGap m now r hinit h5]
      exact ⟨rfl, rfl⟩

/-- Witness for C4: 21 triggers one time-unit apart — the first 20 play
and the 21st (with random draw 1 > 0.3) is dropped; 21 triggers six
time-units apart — all play. -/
theorem burstThrottleBoundaryWitness :
    ((List.replicate 20 ((1 : Nat), (0 : ℚ))).length = 20 ∧
     (∀ p ∈ List.replicate 20 ((1 : Nat), (0 : ℚ)), p.1 < 5) ∧
     (1 : Nat) < 5 ∧ mkRat 3 10 < (1 : ℚ) ∧
     (runTriggers (mkSoundMgr true) 0
        (List.replicate 20 ((1 : Nat), (0 : ℚ)) ++ [(1, 1)])).2 =
       List.replicate 20 true ++ [false]) ∧
    ((∀ p ∈ List.replicate 20 ((6 : Nat), (0 : ℚ)), 5 < p.1) ∧
     ∀ b ∈ (runTriggers (mkSoundMgr true) 0
        (((1 : Nat), (0 : ℚ)) :: List.replicate 20 ((6 : Nat), (0 : ℚ)))).2,
       b = true) :=
  ⟨⟨by decide, by decide, by decide, by decide,
    burstThrottleBoundary.1 (List.replicate 20 ((1 : Nat), (0 : ℚ))) 1 1
      (by decide) (by decide) (by decide) (by decide)⟩,
   ⟨by decide, burstThrottleBoundary.2.1 ((1 : Nat), (0 : ℚ))
      (List.replicate 20 ((6 : Nat), (0 : ℚ))) (by decide)⟩⟩

/-- Witness for C10: applying a negative and an overlarge volume to the
default state keeps the volume in range. -/
theorem setVolumeClampInvariantWitness :
    (0 : Int) ≤ (⟨true, 30⟩ : SoundSettings).volume ∧
    (⟨true, 30⟩ : SoundSettings).volume ≤ 100 ∧
    (0 ≤ (applySetters [.vol (-5), .toggle, .vol 250] ⟨true, 30⟩).volume ∧
     (applySetters [.vol (-5), .toggle, .vol 250] ⟨true, 30⟩).volume ≤ 100) :=
  ⟨by decide, by decide,
    setVolumeClampInvariant.2 [.vol (-5), .toggle, .vol 250] ⟨true, 30⟩
      (by decide) (by decide)⟩

end DotClock
